import Mathlib

set_option maxHeartbeats 1000000

/-!
Verification of the tool-invocation layer of the signalwire-demos/workshop
repository.  The Python sources under src/steps are shallowly embedded:
JSON values become an inductive `Json`; Python exceptions become an explicit
`PyExc` carried in `Except`; the outcome of an outbound HTTP call becomes an
`HttpOutcome` oracle supplied as input; environment variables become a
`String -> Option String` function.  Each agent file gets its own namespace
mirroring the source file.
-/

-- ===================================================================
-- JSON values (results of Python's resp.json(), inputs of json.dump)
-- ===================================================================

/-- A JSON value.  Numbers are modelled as integers; no claim computes with a
numeric payload, so the fractional part is irrelevant here. -/
inductive Json where
  | null
  | bool (b : Bool)
  | num (n : Int)
  | str (s : String)
  | arr (xs : List Json)
  | obj (fields : List (String × Json))

/-- First-match lookup in a JSON object field list (Python dict lookup;
dict keys are unique, so first-match agrees with dict semantics). -/
def jlookup (k : String) : List (String × Json) → Option Json
  | [] => none
  | (k', v) :: rest => if k' = k then some v else jlookup k rest

/-- Python truthiness of a JSON value (`if jokes:`). -/
def Json.truthy : Json → Bool
  | .null => false
  | .bool b => b
  | .num n => n != 0
  | .str s => !s.isEmpty
  | .arr xs => !xs.isEmpty
  | .obj fs => !fs.isEmpty

/-- Python str() of a JSON value as used in f-string interpolation.  Scalars
are rendered exactly as Python renders them; container values never reach an
f-string in the sources under verification, so their rendering is a
placeholder. -/
def pyStr : Json → String
  | .null => "None"
  | .bool b => if b then "True" else "False"
  | .num n => toString n
  | .str s => s
  | .arr _ => "<list>"
  | .obj _ => "<dict>"

-- ===================================================================
-- Python exceptions
-- ===================================================================

/-- The Python exception kinds that can arise in the embedded code.
`requests.exceptions.JSONDecodeError` subclasses `RequestException`
(requests >= 2.27), so an undecodable body is caught by
`except requests.RequestException`. -/
inductive PyExc where
  | requestTimeout
  | connectionError
  | httpError
  | jsonDecodeError
  | keyError
  | typeError
  | attributeError
  | indexError
  | osError
  deriving DecidableEq

/-- Whether the exception is (a subclass of) requests.RequestException. -/
def PyExc.isRequestException : PyExc → Bool
  | .requestTimeout | .connectionError | .httpError | .jsonDecodeError => true
  | _ => false

-- ===================================================================
-- HTTP boundary
-- ===================================================================

/-- The data of one outbound requests.get call: URL, headers, and the value
passed as the timeout keyword (in seconds). -/
structure HttpRequest where
  url : String
  headers : List (String × String)
  timeout : Nat
  deriving DecidableEq

/-- Outcome of one outbound HTTP call, supplied as an oracle.
`noResponse e` means requests.get itself raised `e` (timeout, connection
failure); `response status body` means a response arrived with the given
status code, `body` being the result of parsing it (`none` = undecodable,
in which case resp.json() raises). -/
inductive HttpOutcome where
  | noResponse (e : PyExc)
  | response (status : Nat) (body : Option Json)

/-- Result value returned to the framework by a local tool handler
(SwaigFunctionResult(text)). -/
structure SwaigFunctionResult where
  response : String
  deriving DecidableEq

-- ===================================================================
-- The dad-joke HTTP request (identical in step07, step10 and step11)
-- ===================================================================

/-- The request issued by on_tell_joke:
requests.get("https://api.api-ninjas.com/v1/dadjokes",
headers=\x7b"X-Api-Key": api_key\x7d, timeout=5). -/
def jokeRequest (apiKey : String) : HttpRequest :=
  { url := "https://api.api-ninjas.com/v1/dadjokes"
    headers := [("X-Api-Key", apiKey)]
    timeout := 5 }

/-- Python subscript jokes[0] on a parsed JSON value. -/
def pyIndexZero : Json → Except PyExc Json
  | .arr (x :: _) => .ok x
  | .arr [] => .error .indexError
  | .str s =>
    match s.data with
    | c :: _ => .ok (.str (String.singleton c))
    | [] => .error .indexError
  | .obj _ => .error .keyError
  | _ => .error .typeError

/-- Python subscript x["joke"] on a parsed JSON value. -/
def pyGetJoke : Json → Except PyExc Json
  | .obj fields =>
    match jlookup "joke" fields with
    | some v => .ok v
    | none => .error .keyError
  | _ => .error .typeError

/-- Shared body of the try-block of on_tell_joke (identical logic in step07,
step10 and step11): raise_for_status, resp.json(), truthiness test,
jokes[0]["joke"]; the empty-result message differs per file and is passed in. -/
def jokeTryBody (emptyMsg : String) (outcome : HttpOutcome) :
    Except PyExc SwaigFunctionResult :=
  match outcome with
  | .noResponse e => .error e
  | .response status body =>
    if 400 ≤ status ∧ status < 600 then .error .httpError
    else
      match body with
      | none => .error .jsonDecodeError
      | some jokes =>
        if jokes.truthy then
          match pyIndexZero jokes with
          | .error e => .error e
          | .ok first =>
            match pyGetJoke first with
            | .error e => .error e
            | .ok j => .ok ⟨"Here\x27s a dad joke: " ++ pyStr j⟩
        else
          .ok ⟨emptyMsg⟩

namespace Step11

/-- Apology returned by step11's on_tell_joke when API_NINJAS_KEY is unset. -/
def jokeApologyNoKey : String := "Sorry, my joke book is unavailable right now."

/-- Message returned by step11's on_tell_joke when the parsed body is falsy. -/
def jokeEmptyMsg : String := "I couldn\x27t find a joke this time. Try again!"

/-- Apology returned by step11's on_tell_joke on a caught RequestException. -/
def jokeExcMsg : String := "My joke service is taking a break. Try again in a moment!"

/-- step11 CompleteAgent.on_tell_joke.  Inputs: the value of
os.getenv("API_NINJAS_KEY", "") and an oracle giving the outcome of the one
possible HTTP call.  Output: the handler's result — `.ok` a
SwaigFunctionResult, or `.error e` when a Python exception escapes the
handler — paired with the list of HTTP requests issued. -/
def on_tell_joke (apiKey : String) (http : HttpRequest → HttpOutcome) :
    Except PyExc SwaigFunctionResult × List HttpRequest :=
  if apiKey = "" then
    (.ok ⟨jokeApologyNoKey⟩, [])
  else
    let req := jokeRequest apiKey
    let attempt := jokeTryBody jokeEmptyMsg (http req)
    let result :=
      match attempt with
      | .error e =>
        if e.isRequestException then .ok ⟨jokeExcMsg⟩ else .error e
      | .ok r => .ok r
    (result, [req])

end Step11

namespace Step07

/-- Apology returned by step07's on_tell_joke when API_NINJAS_KEY is unset. -/
def jokeApologyNoKey : String :=
  "Sorry, I can\x27t access my joke book right now. My API key is missing."

/-- Message returned by step07's on_tell_joke when the parsed body is falsy. -/
def jokeEmptyMsg : String :=
  "I tried to find a joke but came up empty. That\x27s... kind of a joke itself?"

/-- Apology returned by step07's on_tell_joke on a caught RequestException. -/
def jokeExcMsg : String :=
  "Sorry, my joke service is taking a nap. Ask me again in a moment!"

/-- step07 JokeAgent.on_tell_joke; same structure as step11's, different
message strings. -/
def on_tell_joke (apiKey : String) (http : HttpRequest → HttpOutcome) :
    Except PyExc SwaigFunctionResult × List HttpRequest :=
  if apiKey = "" then
    (.ok ⟨jokeApologyNoKey⟩, [])
  else
    let req := jokeRequest apiKey
    let attempt := jokeTryBody jokeEmptyMsg (http req)
    let result :=
      match attempt with
      | .error e =>
        if e.isRequestException then .ok ⟨jokeExcMsg⟩ else .error e
      | .ok r => .ok r
    (result, [req])

end Step07

namespace Step06

/-- The eight hardcoded jokes of step06. -/
def JOKES : List String :=
  [ "Why do programmers prefer dark mode? Because light attracts bugs.",
    "I told my wife she was drawing her eyebrows too high. She looked surprised.",
    "What do you call a fake noodle? An impasta.",
    "Why don\x27t scientists trust atoms? Because they make up everything.",
    "I\x27m reading a book about anti-gravity. It\x27s impossible to put down.",
    "What did the ocean say to the beach? Nothing, it just waved.",
    "Why did the scarecrow win an award? He was outstanding in his field.",
    "I used to hate facial hair, but then it grew on me." ]

/-- step06 JokeAgent.on_tell_joke.  random.choice(JOKES) is modelled by an
index into the (nonempty) list, so the random draw is an explicit input; the
args mapping is ignored by the source and by the model. -/
def on_tell_joke (args : List (String × Json)) (choice : Fin JOKES.length) :
    SwaigFunctionResult :=
  ⟨"Here\x27s a joke: " ++ JOKES.get choice⟩

end Step06

-- ===================================================================
-- Template renderer (the DataMap engine runs on SignalWire servers)
-- ===================================================================

/-- Modelled from the spec: the hexadecimal digit characters used by
percent-encoding (spec 4.1, `enc:` prefix).  The DataMap template renderer
itself is framework code not present under src/. -/
def hexDigit : Nat → Char
  | 0 => '0'
  | 1 => '1'
  | 2 => '2'
  | 3 => '3'
  | 4 => '4'
  | 5 => '5'
  | 6 => '6'
  | 7 => '7'
  | 8 => '8'
  | 9 => '9'
  | 10 => 'A'
  | 11 => 'B'
  | 12 => 'C'
  | 13 => 'D'
  | 14 => 'E'
  | _ => 'F'

/-- Modelled from the spec: one percent-escaped byte, `%HH`. -/
def byteHexChars (b : Nat) : List Char :=
  ['%', hexDigit (b / 16 % 16), hexDigit (b % 16)]

/-- Modelled from the spec: the UTF-8 bytes of a character, for
percent-encoding of non-ASCII scalars. -/
def utf8Bytes (c : Char) : List Nat :=
  let n := c.toNat
  if n < 128 then [n]
  else if n < 2048 then [192 + n / 64, 128 + n % 64]
  else if n < 65536 then [224 + n / 4096, 128 + n / 64 % 64, 128 + n % 64]
  else [240 + n / 262144, 128 + n / 4096 % 64, 128 + n / 64 % 64, 128 + n % 64]

/-- Modelled from the spec: characters left unescaped by URL-query
percent-encoding (the RFC 3986 unreserved set). -/
def isUnreserved (c : Char) : Bool :=
  c.isAlpha || c.isDigit || c = '-' || c = '_' || c = '.' || c = '~'

/-- Modelled from the spec: percent-encoding of one character. -/
def encChar (c : Char) : List Char :=
  if isUnreserved c then [c] else ((utf8Bytes c).map byteHexChars).flatten

/-- Modelled from the spec: percent-encoding of a character list. -/
def encList : List Char → List Char
  | [] => []
  | c :: rest => encChar c ++ encList rest

/-- Modelled from the spec: percent-encoding of a scalar value for embedding
in a URL query component (spec 4.1, `enc:` behavior). -/
def percentEncode (s : String) : String := String.mk (encList s.data)

/-- The two namespaces a template is rendered against (spec 3,
TemplateContext): `args` always present, `response` only after a successful
remote call. -/
structure TemplateContext where
  args : List (String × Json)
  response : Option Json

/-- A parsed template segment: a literal character or a `$\x7b...\x7d` token
(token characters exclude the delimiters). -/
inductive Seg where
  | litc (c : Char)
  | tok (t : List Char)

/-- Modelled from the spec: rendering error kinds of the template renderer
(spec 4.1: unresolvable token, and a token missing its closing brace). -/
inductive RenderErr where
  | unterminatedToken
  | unresolvable (t : List Char)

/-- Modelled from the spec: split a token path on dots
(`namespace.path.segment`). -/
def splitDots (acc : List Char) : List Char → List (List Char)
  | [] => [acc.reverse]
  | c :: rest =>
    if c = '.' then acc.reverse :: splitDots [] rest
    else splitDots (c :: acc) rest

/-- Modelled from the spec: read a path segment as a zero-based array index
(all-digit segment). -/
def digitsToNat : List Char → Option Nat
  | [] => none
  | l => if l.all Char.isDigit then some (l.foldl (fun n c => 10 * n + (c.toNat - 48)) 0) else none

/-- Modelled from the spec: walk a dot-separated path through nested
mappings and sequences (spec 4.1 resolution). -/
def walkPath : Json → List (List Char) → Option Json
  | j, [] => some j
  | .obj fields, seg :: rest =>
    match jlookup (String.mk seg) fields with
    | some v => walkPath v rest
    | none => none
  | .arr xs, seg :: rest =>
    match digitsToNat seg with
    | some i =>
      match xs.get? i with
      | some v => walkPath v rest
      | none => none
    | none => none
  | _, _ :: _ => none

/-- Modelled from the spec: the natural string form of a resolved scalar
(spec 4.1: numbers and booleans rendered canonically); a non-scalar terminal
value is unresolvable. -/
def scalarString : Json → Option String
  | .str s => some s
  | .num n => some (toString n)
  | .bool true => some "true"
  | .bool false => some "false"
  | _ => none

/-- Modelled from the spec: resolve one token `[enc:]namespace.path` against
the context; with `enc:` the scalar is percent-encoded before substitution. -/
def resolveToken (ctx : TemplateContext) (t : List Char) : Except RenderErr String :=
  let encAndBody : Bool × List Char :=
    match t with
    | 'e' :: 'n' :: 'c' :: ':' :: rest => (true, rest)
    | l => (false, l)
  match splitDots [] encAndBody.2 with
  | [] => .error (.unresolvable t)
  | ns :: path =>
    let root : Option Json :=
      if ns = "args".data then some (Json.obj ctx.args)
      else if ns = "response".data then ctx.response
      else none
    match root with
    | none => .error (.unresolvable t)
    | some j =>
      match walkPath j path with
      | none => .error (.unresolvable t)
      | some v =>
        match scalarString v with
        | none => .error (.unresolvable t)
        | some s => .ok (if encAndBody.1 then percentEncode s else s)

/-- Parser mode: scanning literal text, just seen an unconsumed `$`, or
collecting token characters (accumulated in reverse). -/
inductive ScanMode where
  | lit
  | sawDollar
  | tok (acc : List Char)

/-- Modelled from the spec: split a template into literal characters and
`$\x7b...\x7d` tokens.  A `$` not followed by `\x7b` is literal text; a token
without a closing `\x7d` is an error.  One character is consumed per step so
the recursion is structural. -/
def parseChars : ScanMode → List Char → Except RenderErr (List Seg)
  | .lit, [] => .ok []
  | .lit, c :: rest =>
    if c = '$' then parseChars .sawDollar rest
    else (Seg.litc c :: ·) <$> parseChars .lit rest
  | .sawDollar, [] => .ok [Seg.litc '$']
  | .sawDollar, c :: rest =>
    if c = '\x7b' then parseChars (.tok []) rest
    else if c = '$' then (Seg.litc '$' :: ·) <$> parseChars .sawDollar rest
    else (fun segs => Seg.litc '$' :: Seg.litc c :: segs) <$> parseChars .lit rest
  | .tok _, [] => .error .unterminatedToken
  | .tok acc, c :: rest =>
    if c = '\x7d' then (Seg.tok acc.reverse :: ·) <$> parseChars .lit rest
    else parseChars (.tok (c :: acc)) rest

/-- Modelled from the spec: render a list of parsed segments against a
context. -/
def renderSegs (ctx : TemplateContext) : List Seg → Except RenderErr String
  | [] => .ok ""
  | .litc c :: rest => (String.singleton c ++ ·) <$> renderSegs ctx rest
  | .tok t :: rest =>
    match resolveToken ctx t with
    | .error e => .error e
    | .ok v => (v ++ ·) <$> renderSegs ctx rest

/-- Modelled from the spec: `render(template, context)` (spec 4.1), the
contract of the DataMap template engine, which executes on SignalWire
servers and is not part of src/. -/
def render (t : String) (ctx : TemplateContext) : Except RenderErr String :=
  match parseChars .lit t.data with
  | .error e => .error e
  | .ok segs => renderSegs ctx segs

/-- A context holding only the args namespace with the single parameter
`city`, as available to the get_weather fallback template. -/
def cityCtx (city : String) : TemplateContext :=
  { args := [("city", Json.str city)], response := none }

-- ===================================================================
-- The get_weather DataMap (identical in step10 and step11)
-- ===================================================================

namespace Step11

/-- Literal part of the get_weather webhook URL before the interpolated
WEATHER_API_KEY (Python f-string). -/
def weatherUrlA : String := "https://api.weatherapi.com/v1/current.json?key="

/-- Literal part of the get_weather webhook URL after the key; the city is
referenced only through the enc: token. -/
def weatherUrlB : String := "&q=$\x7benc:args.city\x7d"

/-- The full get_weather webhook URL template as built by the source:
the f-string interpolates the key, leaving the `$\x7benc:args.city\x7d`
token for the DataMap renderer. -/
def weatherUrl (apiKey : String) : String := weatherUrlA ++ apiKey ++ weatherUrlB

/-- The get_weather success output template (step10/step11 .output). -/
def weatherSuccessTemplate : String :=
  "Weather in $\x7bargs.city\x7d: $\x7bresponse.current.condition.text\x7d, " ++
  "$\x7bresponse.current.temp_f\x7d degrees Fahrenheit, " ++
  "humidity $\x7bresponse.current.humidity\x7d percent. " ++
  "Feels like $\x7bresponse.current.feelslike_f\x7d degrees."

/-- The get_weather fallback output template (step10/step11
.fallback_output). -/
def weatherFallbackTemplate : String :=
  "Sorry, I couldn\x27t get the weather for $\x7bargs.city\x7d. " ++
  "Please check the city name and try again."

end Step11

-- ===================================================================
-- check_ngrok (byte-identical in all five source files)
-- ===================================================================

/-- The environment variable check_ngrok reads and writes. -/
def proxyEnvKey : String := "SWML_PROXY_URL_BASE"

/-- os.environ as a partial map; setting a variable. -/
def envSet (env : String → Option String) (k v : String) : String → Option String :=
  fun x => if x = k then some v else env x

/-- The step `tunnels = resp.json().get("tunnels", [])`: a non-dict body has
no .get attribute, so the AttributeError is raised (and later caught). -/
def tunnelsOf : Json → Except PyExc Json
  | .obj fields => .ok ((jlookup "tunnels" fields).getD (.arr []))
  | _ => .error .attributeError

/-- The `for t in tunnels` loop body chain: t.get("proto") == "https", then
t["public_url"], then os.environ assignment (which needs a str value).
Returns the first https tunnel's public URL, none when the loop completes
without a match, or the Python exception raised inside the loop. -/
def findHttpsLoop : List Json → Except PyExc (Option String)
  | [] => .ok none
  | t :: rest =>
    match t with
    | .obj fields =>
      match jlookup "proto" fields with
      | some (.str s) =>
        if s = "https" then
          match jlookup "public_url" fields with
          | some (.str u) => .ok (some u)
          | some _ => .error .typeError
          | none => .error .keyError
        else findHttpsLoop rest
      | _ => findHttpsLoop rest
    | _ => .error .attributeError

/-- Iterating `for t in tunnels` when tunnels is not a list: a dict iterates
its keys (strings, which lack .get), a string iterates characters (ditto),
scalars are not iterable.  Empty containers run the loop zero times. -/
def iterTunnels : Json → Except PyExc (Option String)
  | .arr ts => findHttpsLoop ts
  | .obj [] => .ok none
  | .obj (_ :: _) => .error .attributeError
  | .str s => if s.isEmpty then .ok none else .error .attributeError
  | _ => .error .typeError

/-- The try-block of check_ngrok: probe the ngrok API, read the tunnel list,
scan for an https tunnel.  The probe argument is the combined outcome of
requests.get(..., timeout=1) and resp.json(): `.error` when either raised. -/
def ngrokTry (probe : Except PyExc Json) : Except PyExc (Option String) :=
  match probe with
  | .error e => .error e
  | .ok body =>
    match tunnelsOf body with
    | .error e => .error e
    | .ok tunnels => iterTunnels tunnels

/-- check_ngrok, byte-identical in all five files: on the first https tunnel
it sets SWML_PROXY_URL_BASE and returns the public URL; on any exception or
when no https tunnel is found it returns os.getenv("SWML_PROXY_URL_BASE", "")
with the environment unchanged.  Returns (final environment, return value). -/
def check_ngrok (probe : Except PyExc Json) (env : String → Option String) :
    (String → Option String) × String :=
  match ngrokTry probe with
  | .ok (some url) => (envSet env proxyEnvKey url, url)
  | _ => (env, (env proxyEnvKey).getD "")

/-- Whether a tunnel entry is a JSON object whose "proto" field is the
string "https" — the membership test of check_ngrok's loop, phrased on one
entry. -/
def isHttpsTunnel : Json → Bool
  | .obj fields =>
    match jlookup "proto" fields with
    | some (.str s) => s = "https"
    | _ => false
  | _ => false

/-- A tunnel entry the loop can process without raising: it is an object,
and if it is the https entry it carries a string public_url. -/
def tunnelWellFormed : Json → Bool
  | .obj fields =>
    match jlookup "proto" fields with
    | some (.str s) =>
      if s = "https" then
        match jlookup "public_url" fields with
        | some (.str _) => true
        | _ => false
      else true
    | _ => true
  | _ => false

-- ===================================================================
-- on_summary (identical in all files that define it)
-- ===================================================================

/-- The artifact path chosen by on_summary:
call_id = (raw_data or \x7b\x7d).get("call_id", datetime.now().strftime(...));
filepath = os.path.join("calls", f"\x7bcall_id\x7d.json").  `now` is the
timestamp string; a non-string call_id value is rendered by the f-string. -/
def summaryPath (raw : Option (List (String × Json))) (now : String) : String :=
  let callId :=
    match jlookup "call_id" (raw.getD []) with
    | some v => pyStr v
    | none => now
  "calls/" ++ callId ++ ".json"

/-- The JSON value json.dump serializes: raw_data itself (None becomes
null). -/
def rawJson : Option (List (String × Json)) → Json
  | none => .null
  | some fields => .obj fields

/-- Fault injection for the three I/O steps of on_summary: whether
os.makedirs raises, whether open raises, whether json.dump raises. -/
structure FsFaults where
  makedirsRaises : Bool
  openRaises : Bool
  dumpRaises : Bool

/-- The fault-free filesystem. -/
def noFaults : FsFaults := ⟨false, false, false⟩

/-- on_summary (identical in step04, step06, step10 and step11): makedirs,
choose the identifier, open calls/<id>.json, json.dump(raw_data).  The body
has no exception handling, so a fault at any step surfaces as `.error`
(an uncaught Python exception propagating to the caller); on success the
result is the path written and the serialized value.  The summary argument
is taken but the write depends only on raw_data and the clock. -/
def on_summary (fs : FsFaults) (summary : String)
    (raw : Option (List (String × Json))) (now : String) :
    Except PyExc (String × Json) :=
  if fs.makedirsRaises then .error .osError
  else
    let filepath := summaryPath raw now
    if fs.openRaises then .error .osError
    else if fs.dumpRaises then .error .typeError
    else .ok (filepath, rawJson raw)

-- ===================================================================
-- step11 agent construction (CompleteAgent.__init__)
-- ===================================================================

namespace Step11

/-- What CompleteAgent.__init__ registers: the tool/skill names, and the
weather webhook URL with the WEATHER_API_KEY interpolated at registration
time. -/
structure AgentConfig where
  tools : List String
  weatherWebhookUrl : String
  deriving DecidableEq

/-- CompleteAgent.__init__ as far as tool registration is concerned:
define_tool("tell_joke"), the get_weather DataMap (whose URL embeds
os.getenv("WEATHER_API_KEY", "")), and the datetime and math skills.
Construction is total — no branch inspects API_NINJAS_KEY and no branch can
fail; a missing key surfaces only later, inside per-call handlers. -/
def completeAgentInit (env : String → Option String) : AgentConfig :=
  { tools := ["tell_joke", "get_weather", "datetime", "math"]
    weatherWebhookUrl := weatherUrl ((env "WEATHER_API_KEY").getD "") }

end Step11

-- ===================================================================
-- Helper predicates used by the theorems
-- ===================================================================

/-- Whether the first list is an initial segment of the second. -/
def listStarts : List Char → List Char → Bool
  | [], _ => true
  | _ :: _, [] => false
  | p :: ps, c :: cs => p = c && listStarts ps cs

/-- Whether the pattern occurs contiguously anywhere in the list. -/
def listHasSub (pat : List Char) : List Char → Bool
  | [] => pat.isEmpty
  | c :: rest => listStarts pat (c :: rest) || listHasSub pat rest

/-- The pattern string occurs contiguously inside s. -/
def hasSubstr (pat s : String) : Prop :=
  ∃ a b : List Char, s.data = a ++ pat.data ++ b

/-- The HTTP outcomes listed by the error-handling claim for on_tell_joke,
minus the partial-payload one: requests.get raised a RequestException, the
status is non-success (4xx/5xx), the body is undecodable, or the parsed body
is falsy (empty result list). -/
def listedSafeOutcome : HttpOutcome → Bool
  | .noResponse e => e.isRequestException
  | .response _ none => true
  | .response status (some j) =>
    (decide (400 ≤ status) && decide (status < 600)) || !j.truthy

-- ===================================================================
-- Theorems.  General renderer lemmas first, then one theorem per claim.
-- ===================================================================

/-- Parsing a dollar-free prefix yields its characters as literal segments,
independently of what follows. -/
theorem parseChars_nodollar (l rest : List Char) (h : ∀ c ∈ l, c ≠ '$') :
    parseChars .lit (l ++ rest) =
      (fun segs => l.map Seg.litc ++ segs) <$> parseChars .lit rest := by
  induction l with
  | nil => cases hp : parseChars .lit rest <;> simp [hp, Except.map, Functor.map]
  | cons c l ih =>
    have hc : c ≠ '$' := h c (List.mem_cons_self c l)
    have hl : ∀ x ∈ l, x ≠ '$' := fun x hx => h x (List.mem_cons_of_mem c hx)
    have e1 : parseChars .lit (c :: (l ++ rest)) =
        (Seg.litc c :: ·) <$> parseChars .lit (l ++ rest) := by
      simp [parseChars, hc]
    rw [List.cons_append, e1, ih hl]
    cases hp : parseChars .lit rest <;> simp [hp, Except.map, Functor.map]

/-- Rendering a literal-segment prefix prepends its characters verbatim. -/
theorem renderSegs_litcs (ctx : TemplateContext) (l : List Char) (segs : List Seg) :
    renderSegs ctx (l.map Seg.litc ++ segs) =
      (fun s => String.mk l ++ s) <$> renderSegs ctx segs := by
  induction l with
  | nil =>
    cases hp : renderSegs ctx segs <;> simp [hp, Except.map, Functor.map]
  | cons c l ih =>
    have e1 : renderSegs ctx (Seg.litc c :: (l.map Seg.litc ++ segs)) =
        (String.singleton c ++ ·) <$> renderSegs ctx (l.map Seg.litc ++ segs) := by
      simp [renderSegs]
    rw [List.map_cons, List.cons_append, e1, ih]
    cases hp : renderSegs ctx segs <;> simp [hp, Except.map, Functor.map] <;> rfl

/-- No hexadecimal digit character is a space. -/
theorem hexDigit_ne_space (n : Nat) : hexDigit n ≠ ' ' := by
  unfold hexDigit
  split <;> decide

/-- No character of a percent-escaped byte is a space. -/
theorem byteHex_ne_space (b : Nat) : ∀ c ∈ byteHexChars b, c ≠ ' ' := by
  intro c hc
  simp only [byteHexChars, List.mem_cons, List.not_mem_nil, or_false] at hc
  rcases hc with h | h | h
  · subst h; decide
  · subst h; exact hexDigit_ne_space _
  · subst h; exact hexDigit_ne_space _

/-- Percent-encoding one character never produces a space. -/
theorem encChar_ne_space (c : Char) : ∀ x ∈ encChar c, x ≠ ' ' := by
  intro x hx
  unfold encChar at hx
  split at hx
  case isTrue h =>
    simp only [List.mem_singleton] at hx
    subst hx
    intro he
    subst he
    exact absurd h (by decide)
  case isFalse h =>
    rw [List.mem_flatten] at hx
    obtain ⟨l, hl, hxl⟩ := hx
    rw [List.mem_map] at hl
    obtain ⟨b, hb, hbl⟩ := hl
    subst hbl
    exact byteHex_ne_space b x hxl

/-- Percent-encoding never produces a space. -/
theorem encList_ne_space (l : List Char) : ∀ x ∈ encList l, x ≠ ' ' := by
  induction l with
  | nil => intro x hx; simp [encList] at hx
  | cons c l ih =>
    intro x hx
    rcases List.mem_append.mp (by simpa [encList] using hx) with h | h
    · exact encChar_ne_space c x h
    · exact ih x h

/-- Percent-encoding a list containing a space produces the escape %20. -/
theorem encList_space (l : List Char) (h : ' ' ∈ l) :
    ∃ a b, encList l = a ++ ['%', '2', '0'] ++ b := by
  induction l with
  | nil => cases h
  | cons c l ih =>
    rcases List.mem_cons.mp h with h | h
    · refine ⟨[], encList l, ?_⟩
      subst h
      simp [encList, show encChar ' ' = ['%', '2', '0'] from by decide]
    · obtain ⟨a, b, hab⟩ := ih h
      exact ⟨encChar c ++ a, b, by simp [encList, hab]⟩

/-- Claim C2: the get_weather request URL references the city only through
the $\x7benc:args.city\x7d token, so for every city value containing a space
(the API key itself holding no space or dollar character) the rendered URL
contains the percent-encoded form %20 and never a literal space. -/
theorem weather_url_encodes_city (apiKey city : String)
    (hkey : ∀ c ∈ apiKey.data, c ≠ '$' ∧ c ≠ ' ')
    (hcity : ' ' ∈ city.data) :
    ∃ u, render (Step11.weatherUrl apiKey) (cityCtx city) = .ok u ∧
      hasSubstr "%20" u ∧ ∀ c ∈ u.data, c ≠ ' ' := by
  have hdata : (Step11.weatherUrl apiKey).data =
      Step11.weatherUrlA.data ++ (apiKey.data ++ Step11.weatherUrlB.data) := by
    simp [Step11.weatherUrl, String.data_append]
  have hA : ∀ c ∈ Step11.weatherUrlA.data, c ≠ '$' := by decide
  have hk : ∀ c ∈ apiKey.data, c ≠ '$' := fun c hc => (hkey c hc).1
  have hparseB : parseChars .lit Step11.weatherUrlB.data =
      .ok [Seg.litc '&', Seg.litc 'q', Seg.litc '=',
        Seg.tok ("enc:args.city" : String).data] := rfl
  have hparse : parseChars .lit (Step11.weatherUrl apiKey).data =
      .ok (Step11.weatherUrlA.data.map Seg.litc ++ (apiKey.data.map Seg.litc ++
        [Seg.litc '&', Seg.litc 'q', Seg.litc '=',
          Seg.tok ("enc:args.city" : String).data])) := by
    rw [hdata, parseChars_nodollar _ _ hA, parseChars_nodollar _ _ hk, hparseB]
    simp [Except.map, Functor.map]
  have hrendB : renderSegs (cityCtx city)
      [Seg.litc '&', Seg.litc 'q', Seg.litc '=',
        Seg.tok ("enc:args.city" : String).data] =
      .ok ("&q=" ++ (percentEncode city ++ "")) := rfl
  have hrender : render (Step11.weatherUrl apiKey) (cityCtx city) =
      .ok (String.mk Step11.weatherUrlA.data ++ (String.mk apiKey.data ++
        ("&q=" ++ (percentEncode city ++ "")))) := by
    unfold render
    rw [hparse]
    show renderSegs (cityCtx city) _ = _
    rw [renderSegs_litcs, renderSegs_litcs, hrendB]
    simp [Except.map, Functor.map]
  refine ⟨_, hrender, ?_, ?_⟩
  · obtain ⟨a, b, hab⟩ := encList_space city.data hcity
    refine ⟨Step11.weatherUrlA.data ++ apiKey.data ++ ('&' :: 'q' :: '=' :: a), b ++ [], ?_⟩
    simp [String.data_append, percentEncode, hab]
  · intro c hc
    simp only [String.data_append, List.mem_append] at hc
    rcases hc with h | h | h
    · exact (show ∀ c ∈ Step11.weatherUrlA.data, c ≠ ' ' from by decide) c h
    · exact (hkey c h).2
    · have h2 : (c = '&' ∨ c = 'q' ∨ c = '=') ∨ c ∈ encList city.data := by
        simpa [String.data_append, percentEncode] using h
      rcases h2 with (rfl | rfl | rfl) | h2
      · decide
      · decide
      · decide
      · exact encList_ne_space city.data c h2

/-- Claim C2 witness at apiKey = "k1", city = "San Francisco". -/
theorem weather_url_encodes_city_witness :
    ∃ u, render (Step11.weatherUrl "k1") (cityCtx "San Francisco") = .ok u ∧
      hasSubstr "%20" u ∧ ∀ c ∈ u.data, c ≠ ' ' :=
  weather_url_encodes_city "k1" "San Francisco" (by decide) (by decide)

/-- Claim C3: the get_weather fallback output template mentions no
response.* token (the substring "response" does not occur in it at all), and
it renders successfully from a context containing only the args namespace,
for every city value, to the expected apology. -/
theorem weather_fallback_args_only :
    listHasSub ("response" : String).data Step11.weatherFallbackTemplate.data = false ∧
    ∀ city : String, render Step11.weatherFallbackTemplate (cityCtx city) =
      .ok ("Sorry, I couldn\x27t get the weather for " ++ city ++
        ". Please check the city name and try again.") := by
  refine ⟨by decide, ?_⟩
  intro city
  have hdata : Step11.weatherFallbackTemplate.data =
      ("Sorry, I couldn\x27t get the weather for " : String).data ++
      ("$\x7bargs.city\x7d. Please check the city name and try again." : String).data := by
    decide
  have hF1 : ∀ c ∈ ("Sorry, I couldn\x27t get the weather for " : String).data,
      c ≠ '$' := by decide
  have hparseT : parseChars .lit
      ("$\x7bargs.city\x7d. Please check the city name and try again." : String).data =
      .ok (Seg.tok ("args.city" : String).data ::
        (". Please check the city name and try again." : String).data.map Seg.litc) := rfl
  have hparse : parseChars .lit Step11.weatherFallbackTemplate.data =
      .ok (("Sorry, I couldn\x27t get the weather for " : String).data.map Seg.litc ++
        (Seg.tok ("args.city" : String).data ::
          (". Please check the city name and try again." : String).data.map Seg.litc)) := by
    rw [hdata, parseChars_nodollar _ _ hF1, hparseT]
    simp [Except.map, Functor.map]
  have hrendT : renderSegs (cityCtx city)
      (Seg.tok ("args.city" : String).data ::
        (". Please check the city name and try again." : String).data.map Seg.litc) =
      .ok (city ++ ". Please check the city name and try again.") := rfl
  unfold render
  rw [hparse]
  show renderSegs (cityCtx city) _ = _
  rw [renderSegs_litcs, hrendT]
  simp only [Except.map, Functor.map]
  apply congrArg
  apply String.ext
  simp [String.data_append]

/-- On every outcome listed as safe — RequestException, 4xx/5xx status,
undecodable body, falsy parsed body — the shared try-block either raises a
RequestException (later caught) or returns the empty-result message. -/
theorem jokeTryBody_listedSafe (emptyMsg : String) (o : HttpOutcome)
    (h : listedSafeOutcome o = true) :
    (∃ e, jokeTryBody emptyMsg o = .error e ∧ e.isRequestException = true) ∨
    jokeTryBody emptyMsg o = .ok ⟨emptyMsg⟩ := by
  cases o with
  | noResponse e =>
    left
    exact ⟨e, rfl, by simpa [listedSafeOutcome] using h⟩
  | response status body =>
    cases body with
    | none =>
      by_cases hs : 400 ≤ status ∧ status < 600
      · left; exact ⟨.httpError, by simp [jokeTryBody, hs], rfl⟩
      · left; exact ⟨.jsonDecodeError, by simp [jokeTryBody, hs], rfl⟩
    | some j =>
      have h' : ((decide (400 ≤ status) && decide (status < 600)) || !j.truthy) = true := by
        simpa [listedSafeOutcome] using h
      by_cases hs : 400 ≤ status ∧ status < 600
      · left; exact ⟨.httpError, by simp [jokeTryBody, hs], rfl⟩
      · right
        have ht : j.truthy = false := by
          rcases Bool.or_eq_true_iff.mp h' with h2 | h2
          · exact absurd ⟨of_decide_eq_true (Bool.and_eq_true_iff.mp h2).1,
              of_decide_eq_true (Bool.and_eq_true_iff.mp h2).2⟩ hs
          · simpa using h2
        simp [jokeTryBody, hs, ht]

/-- Claim C1 counterexample: with the API key set and a successful response
whose first element lacks the "joke" field, step11's on_tell_joke raises
KeyError out of the handler instead of returning an apologetic result —
jokes[0]["joke"] is evaluated inside a try that catches only
requests.RequestException. -/
theorem on_tell_joke_missing_joke_field_raises :
    (Step11.on_tell_joke "key123" (fun _ =>
      .response 200 (some (.arr [.obj [("setup", .str "why")]])))).1 =
      .error .keyError := rfl

/-- Claim C1 (amended): for the listed upstream failures other than a truthy
payload with a malformed first element — i.e. a RequestException from
requests.get, a non-success status, an undecodable body, or a falsy parsed
body — step11's and step07's on_tell_joke return a non-empty apologetic
result without raising; likewise when the key is unset.  The remaining
listed case (first element lacking "joke") instead raises, per the
counterexample. -/
theorem on_tell_joke_listed_failures_apologize (apiKey : String)
    (http : HttpRequest → HttpOutcome)
    (hsafe : listedSafeOutcome (http (jokeRequest apiKey)) = true) :
    (∃ m, (Step11.on_tell_joke apiKey http).1 = .ok ⟨m⟩ ∧ m ≠ "") ∧
    (∃ m, (Step07.on_tell_joke apiKey http).1 = .ok ⟨m⟩ ∧ m ≠ "") := by
  constructor
  · by_cases hk : apiKey = ""
    · refine ⟨Step11.jokeApologyNoKey, ?_, by decide⟩
      simp [Step11.on_tell_joke, hk]
    · rcases jokeTryBody_listedSafe Step11.jokeEmptyMsg (http (jokeRequest apiKey)) hsafe with
        ⟨e, he, hreq⟩ | hok
      · refine ⟨Step11.jokeExcMsg, ?_, by decide⟩
        simp [Step11.on_tell_joke, hk, he, hreq]
      · refine ⟨Step11.jokeEmptyMsg, ?_, by decide⟩
        simp [Step11.on_tell_joke, hk, hok]
  · by_cases hk : apiKey = ""
    · refine ⟨Step07.jokeApologyNoKey, ?_, by decide⟩
      simp [Step07.on_tell_joke, hk]
    · rcases jokeTryBody_listedSafe Step07.jokeEmptyMsg (http (jokeRequest apiKey)) hsafe with
        ⟨e, he, hreq⟩ | hok
      · refine ⟨Step07.jokeExcMsg, ?_, by decide⟩
        simp [Step07.on_tell_joke, hk, he, hreq]
      · refine ⟨Step07.jokeEmptyMsg, ?_, by decide⟩
        simp [Step07.on_tell_joke, hk, hok]

/-- Claim C1 witness: timeout outcome at a concrete key. -/
theorem on_tell_joke_listed_failures_apologize_witness :
    (∃ m, (Step11.on_tell_joke "k2" (fun _ => .noResponse .requestTimeout)).1 =
        .ok ⟨m⟩ ∧ m ≠ "") ∧
    (∃ m, (Step07.on_tell_joke "k2" (fun _ => .noResponse .requestTimeout)).1 =
        .ok ⟨m⟩ ∧ m ≠ "") :=
  on_tell_joke_listed_failures_apologize "k2" (fun _ => .noResponse .requestTimeout)
    (by decide)

/-- Claim C5 counterexample: on a successful empty-list response the handler
does not "silently return an empty array" — it returns a fixed non-empty
message; and on a first element lacking the joke property it does not return
empty fallback text — it raises KeyError. -/
theorem empty_jokes_returns_message_not_empty_array :
    (Step11.on_tell_joke "key123" (fun _ => .response 200 (some (.arr [])))).1 =
      .ok ⟨Step11.jokeEmptyMsg⟩ ∧
    Step11.jokeEmptyMsg ≠ "" ∧
    (Step11.on_tell_joke "key123" (fun _ => .response 200 (some (.arr [.obj []])))).1 =
      .error .keyError :=
  ⟨rfl, by decide, rfl⟩

/-- Claim C5 (amended): on a successful response parsing to a falsy value,
step11 and step07 return their fixed non-empty "found no joke" messages;
and when the first element of a non-empty result list lacks the "joke"
property the handlers raise KeyError rather than returning empty fallback
text. -/
theorem empty_and_partial_joke_responses (apiKey : String)
    (http : HttpRequest → HttpOutcome) (hk : apiKey ≠ "") :
    (∀ status j, http (jokeRequest apiKey) = .response status (some j) →
      ¬(400 ≤ status ∧ status < 600) → j.truthy = false →
      (Step11.on_tell_joke apiKey http).1 = .ok ⟨Step11.jokeEmptyMsg⟩ ∧
      (Step07.on_tell_joke apiKey http).1 = .ok ⟨Step07.jokeEmptyMsg⟩) ∧
    (∀ status fields rest, http (jokeRequest apiKey) =
        .response status (some (.arr (.obj fields :: rest))) →
      ¬(400 ≤ status ∧ status < 600) → jlookup "joke" fields = none →
      (Step11.on_tell_joke apiKey http).1 = .error .keyError ∧
      (Step07.on_tell_joke apiKey http).1 = .error .keyError) := by
  constructor
  · intro status j hhttp hs ht
    constructor <;>
      simp [Step11.on_tell_joke, Step07.on_tell_joke, hk, hhttp, jokeTryBody, hs, ht]
  · intro status fields rest hhttp hs hnone
    constructor <;>
      simp [Step11.on_tell_joke, Step07.on_tell_joke, hk, hhttp, jokeTryBody, hs,
        Json.truthy, pyIndexZero, pyGetJoke, hnone, PyExc.isRequestException]

/-- Claim C5 witness: empty list at a concrete key. -/
theorem empty_and_partial_joke_responses_witness :
    (Step11.on_tell_joke "k3" (fun _ => .response 200 (some (.arr [])))).1 =
      .ok ⟨Step11.jokeEmptyMsg⟩ :=
  ((empty_and_partial_joke_responses "k3" (fun _ => .response 200 (some (.arr [])))
      (by decide)).1 200 (.arr []) rfl (by omega) rfl).1

/-- Claim C7: per invocation on_tell_joke issues at most one HTTP request,
every issued request carries timeout=5, and whenever the API key is set the
trace is exactly the single dad-jokes request — a single attempt, no retry
loop. -/
theorem joke_request_single_attempt_timeout5 (apiKey : String)
    (http : HttpRequest → HttpOutcome) :
    ((Step11.on_tell_joke apiKey http).2.length ≤ 1 ∧
      (Step07.on_tell_joke apiKey http).2.length ≤ 1) ∧
    (∀ r ∈ (Step11.on_tell_joke apiKey http).2, r.timeout = 5) ∧
    (∀ r ∈ (Step07.on_tell_joke apiKey http).2, r.timeout = 5) ∧
    (apiKey ≠ "" →
      (Step11.on_tell_joke apiKey http).2 = [jokeRequest apiKey] ∧
      (Step07.on_tell_joke apiKey http).2 = [jokeRequest apiKey]) := by
  by_cases hk : apiKey = "" <;>
    simp [Step11.on_tell_joke, Step07.on_tell_joke, hk, jokeRequest]

/-- Claim C7 witness: with the key set, the trace is the one request. -/
theorem joke_request_single_attempt_timeout5_witness :
    (Step11.on_tell_joke "k4" (fun _ => .noResponse .connectionError)).2 =
      [jokeRequest "k4"] ∧
    (Step07.on_tell_joke "k4" (fun _ => .noResponse .connectionError)).2 =
      [jokeRequest "k4"] :=
  (joke_request_single_attempt_timeout5 "k4" (fun _ => .noResponse .connectionError)).2.2.2
    (by decide)

/-- Claim C4 counterexample: with API_NINJAS_KEY absent from the
environment, agent construction succeeds and registers exactly the same
tools as with the key present — nothing fails fast at startup — and the
missing key is instead discovered and handled inside the per-call tell_joke
invocation, which returns the apology. -/
theorem startup_accepts_missing_keys :
    Step11.completeAgentInit (fun _ => none) =
      Step11.completeAgentInit
        (fun k => if k = "API_NINJAS_KEY" then some "secret" else none) ∧
    (Step11.on_tell_joke ""
      (fun _ => .response 200 (some (.arr [.obj [("joke", .str "x")]])))).1 =
      .ok ⟨Step11.jokeApologyNoKey⟩ :=
  ⟨rfl, rfl⟩

/-- Claim C4 (amended): a missing API key is not detectable at startup in
this code: CompleteAgent construction is total, registers the same tool list
for every environment, and interpolates WEATHER_API_KEY (default "") into
the webhook URL without validation; API_NINJAS_KEY is read and checked
inside each tell_joke invocation, which returns an apologetic result and
issues no HTTP request when the key is unset. -/
theorem missing_key_handled_per_call (env : String → Option String) :
    (Step11.completeAgentInit env).tools =
      ["tell_joke", "get_weather", "datetime", "math"] ∧
    (Step11.completeAgentInit env).weatherWebhookUrl =
      Step11.weatherUrl ((env "WEATHER_API_KEY").getD "") ∧
    ∀ http, Step11.on_tell_joke "" http = (.ok ⟨Step11.jokeApologyNoKey⟩, []) := by
  refine ⟨rfl, rfl, fun http => ?_⟩
  simp [Step11.on_tell_joke]

/-- Claim C6 counterexample: when os.makedirs raises, on_summary propagates
the OSError back to the caller instead of completing — the artifact write is
not wrapped in any exception handling. -/
theorem on_summary_io_failure_raises :
    on_summary ⟨true, false, false⟩ "a summary" none "20260101_000000" =
      .error .osError := rfl

/-- Claim C6 (amended): on_summary contains no exception handling: a fault
in makedirs, open, or json.dump surfaces as the corresponding uncaught
exception, in code order; only when all three steps succeed does the write
complete, storing the serialization of raw_data under the chosen path. -/
theorem on_summary_no_exception_handling (fs : FsFaults) (s : String)
    (raw : Option (List (String × Json))) (now : String) :
    (fs.makedirsRaises = true → on_summary fs s raw now = .error .osError) ∧
    (fs.makedirsRaises = false → fs.openRaises = true →
      on_summary fs s raw now = .error .osError) ∧
    (fs.makedirsRaises = false → fs.openRaises = false → fs.dumpRaises = true →
      on_summary fs s raw now = .error .typeError) ∧
    (fs.makedirsRaises = false → fs.openRaises = false → fs.dumpRaises = false →
      on_summary fs s raw now = .ok (summaryPath raw now, rawJson raw)) := by
  refine ⟨fun h1 => ?_, fun h1 h2 => ?_, fun h1 h2 h3 => ?_, fun h1 h2 h3 => ?_⟩
  · simp [on_summary, h1]
  · simp [on_summary, h1, h2]
  · simp [on_summary, h1, h2, h3]
  · simp [on_summary, h1, h2, h3]

/-- Claim C6 witness: the fault-free run on a None payload. -/
theorem on_summary_no_exception_handling_witness :
    on_summary noFaults "s" none "20260101_000000" =
      .ok ("calls/20260101_000000.json", Json.null) :=
  (on_summary_no_exception_handling noFaults "s" none "20260101_000000").2.2.2 rfl rfl rfl

/-- Claim C10: on a fault-free filesystem on_summary ignores the summary
argument entirely; the artifact identifier is raw_data["call_id"] (rendered
by the f-string) when raw_data is a mapping containing that key, and the
current-timestamp string otherwise, including when raw_data is None; the
payload written to calls/<identifier>.json is the serialization of raw_data
itself. -/
theorem on_summary_identifier_and_payload (s1 s2 : String)
    (raw : Option (List (String × Json))) (now : String) :
    on_summary noFaults s1 raw now = on_summary noFaults s2 raw now ∧
    (∀ d v, raw = some d → jlookup "call_id" d = some v →
      on_summary noFaults s1 raw now =
        .ok ("calls/" ++ pyStr v ++ ".json", .obj d)) ∧
    (raw = none →
      on_summary noFaults s1 raw now = .ok ("calls/" ++ now ++ ".json", .null)) ∧
    (∀ d, raw = some d → jlookup "call_id" d = none →
      on_summary noFaults s1 raw now = .ok ("calls/" ++ now ++ ".json", .obj d)) := by
  refine ⟨rfl, ?_, ?_, ?_⟩
  · intro d v hraw hl
    subst hraw
    simp [on_summary, noFaults, summaryPath, rawJson, hl]
  · intro hraw
    subst hraw
    simp [on_summary, noFaults, summaryPath, rawJson, jlookup]
  · intro d hraw hl
    subst hraw
    simp [on_summary, noFaults, summaryPath, rawJson, hl]

/-- Claim C10 witness: call_id present. -/
theorem on_summary_identifier_and_payload_witness :
    on_summary noFaults "sum" (some [("call_id", Json.str "abc123")]) "T" =
      .ok ("calls/abc123.json", Json.obj [("call_id", Json.str "abc123")]) :=
  (on_summary_identifier_and_payload "sum" "other"
      (some [("call_id", Json.str "abc123")]) "T").2.1
    [("call_id", Json.str "abc123")] (Json.str "abc123") rfl rfl

/-- Claim C8: step06's tell_joke handler is a total function that ignores
its argument mapping: for every choice of the random index it returns
exactly "Here's a joke: " followed by one of the eight fixed JOKES. -/
theorem step06_tell_joke_fixed_jokes (args : List (String × Json))
    (choice : Fin Step06.JOKES.length) :
    (∃ j ∈ Step06.JOKES,
      Step06.on_tell_joke args choice = ⟨"Here\x27s a joke: " ++ j⟩) ∧
    ∀ args2, Step06.on_tell_joke args choice = Step06.on_tell_joke args2 choice :=
  ⟨⟨Step06.JOKES.get choice, List.get_mem Step06.JOKES choice.1 choice.2, rfl⟩,
    fun _ => rfl⟩

/-- The loop skips a well-formed non-https entry. -/
theorem findHttpsLoop_skip (t : Json) (rest : List Json)
    (hwf : tunnelWellFormed t = true) (hns : isHttpsTunnel t = false) :
    findHttpsLoop (t :: rest) = findHttpsLoop rest := by
  cases t with
  | obj fields =>
    cases hl : jlookup "proto" fields with
    | none => simp [findHttpsLoop, hl]
    | some v =>
      cases v with
      | str s =>
        have hs : ¬s = "https" := by
          intro he
          subst he
          simp [isHttpsTunnel, hl] at hns
        simp [findHttpsLoop, hl, hs]
      | null => simp [findHttpsLoop, hl]
      | bool b => simp [findHttpsLoop, hl]
      | num n => simp [findHttpsLoop, hl]
      | arr xs => simp [findHttpsLoop, hl]
      | obj f2 => simp [findHttpsLoop, hl]
  | null => simp [tunnelWellFormed] at hwf
  | bool b => simp [tunnelWellFormed] at hwf
  | num n => simp [tunnelWellFormed] at hwf
  | str s => simp [tunnelWellFormed] at hwf
  | arr xs => simp [tunnelWellFormed] at hwf

/-- The loop stops at an https entry carrying a string public_url, setting
the result to that URL. -/
theorem findHttpsLoop_hit (fields : List (String × Json)) (rest : List Json)
    (u : String) (hhttps : isHttpsTunnel (.obj fields) = true)
    (hurl : jlookup "public_url" fields = some (.str u)) :
    findHttpsLoop (Json.obj fields :: rest) = .ok (some u) := by
  cases hl : jlookup "proto" fields with
  | none => simp [isHttpsTunnel, hl] at hhttps
  | some v =>
    cases v with
    | str s =>
      have hs : s = "https" := by simpa [isHttpsTunnel, hl] using hhttps
      subst hs
      simp [findHttpsLoop, hl, hurl]
    | null => simp [isHttpsTunnel, hl] at hhttps
    | bool b => simp [isHttpsTunnel, hl] at hhttps
    | num n => simp [isHttpsTunnel, hl] at hhttps
    | arr xs => simp [isHttpsTunnel, hl] at hhttps
    | obj f2 => simp [isHttpsTunnel, hl] at hhttps

/-- On a well-formed tunnel list whose first https entry has public_url u,
the loop returns u. -/
theorem findHttpsLoop_find (ts : List Json)
    (hwf : ∀ t ∈ ts, tunnelWellFormed t = true)
    (fields : List (String × Json)) (u : String)
    (hfind : ts.find? isHttpsTunnel = some (.obj fields))
    (hurl : jlookup "public_url" fields = some (.str u)) :
    findHttpsLoop ts = .ok (some u) := by
  induction ts with
  | nil => simp at hfind
  | cons t rest ih =>
    cases hp : isHttpsTunnel t with
    | true =>
      rw [List.find?_cons_of_pos _ hp] at hfind
      have ht : t = .obj fields := Option.some.inj hfind
      subst ht
      exact findHttpsLoop_hit fields rest u hp hurl
    | false =>
      rw [List.find?_cons_of_neg _ (by simp [hp])] at hfind
      rw [findHttpsLoop_skip t rest (hwf t (List.mem_cons_self _ _)) hp]
      exact ih (fun x hx => hwf x (List.mem_cons_of_mem _ hx)) hfind

/-- On a well-formed tunnel list with no https entry, the loop completes
without a match and without raising. -/
theorem findHttpsLoop_none (ts : List Json)
    (hwf : ∀ t ∈ ts, tunnelWellFormed t = true)
    (hfind : ts.find? isHttpsTunnel = none) :
    findHttpsLoop ts = .ok none := by
  induction ts with
  | nil => rfl
  | cons t rest ih =>
    cases hp : isHttpsTunnel t with
    | true => rw [List.find?_cons_of_pos _ hp] at hfind; cases hfind
    | false =>
      rw [List.find?_cons_of_neg _ (by simp [hp])] at hfind
      rw [findHttpsLoop_skip t rest (hwf t (List.mem_cons_self _ _)) hp]
      exact ih (fun x hx => hwf x (List.mem_cons_of_mem _ hx)) hfind

/-- Claim C9: check_ngrok never raises — every outcome is either the
discovered https URL with SWML_PROXY_URL_BASE updated, or the current value
of that variable (default "") with the environment untouched.  A probe
failure (connection error, undecodable JSON) falls back; on a well-formed
tunnel list the first https tunnel's public_url is stored and returned, and
when no https tunnel exists the fallback is returned. -/
theorem check_ngrok_total_and_spec :
    (∀ probe env,
      (∃ u, check_ngrok probe env = (envSet env proxyEnvKey u, u)) ∨
      check_ngrok probe env = (env, (env proxyEnvKey).getD "")) ∧
    (∀ (env : String → Option String) e,
      check_ngrok (.error e) env = (env, (env proxyEnvKey).getD "")) ∧
    (∀ env ts fields u, (∀ t ∈ ts, tunnelWellFormed t = true) →
      ts.find? isHttpsTunnel = some (.obj fields) →
      jlookup "public_url" fields = some (.str u) →
      check_ngrok (.ok (.obj [("tunnels", .arr ts)])) env =
        (envSet env proxyEnvKey u, u)) ∧
    (∀ env ts, (∀ t ∈ ts, tunnelWellFormed t = true) →
      ts.find? isHttpsTunnel = none →
      check_ngrok (.ok (.obj [("tunnels", .arr ts)])) env =
        (env, (env proxyEnvKey).getD "")) := by
  refine ⟨?_, ?_, ?_, ?_⟩
  · intro probe env
    cases hn : ngrokTry probe with
    | ok o =>
      cases o with
      | some u => exact Or.inl ⟨u, by simp [check_ngrok, hn]⟩
      | none => exact Or.inr (by simp [check_ngrok, hn])
    | error e => exact Or.inr (by simp [check_ngrok, hn])
  · intro env e
    simp [check_ngrok, ngrokTry]
  · intro env ts fields u hwf hfind hurl
    have hloop := findHttpsLoop_find ts hwf fields u hfind hurl
    simp [check_ngrok, ngrokTry, tunnelsOf, jlookup, iterTunnels, hloop]
  · intro env ts hwf hfind
    have hloop := findHttpsLoop_none ts hwf hfind
    simp [check_ngrok, ngrokTry, tunnelsOf, jlookup, iterTunnels, hloop]

/-- Claim C9 witness: a probe with an http tunnel followed by an https
tunnel stores and returns the https public URL. -/
theorem check_ngrok_total_and_spec_witness :
    check_ngrok (.ok (.obj [("tunnels", .arr
        [.obj [("proto", .str "http"), ("public_url", .str "http://a")],
         .obj [("proto", .str "https"), ("public_url", .str "https://b")]])]))
      (fun _ => none) =
      (envSet (fun _ => none) proxyEnvKey "https://b", "https://b") :=
  check_ngrok_total_and_spec.2.2.1 (fun _ => none)
    [.obj [("proto", .str "http"), ("public_url", .str "http://a")],
     .obj [("proto", .str "https"), ("public_url", .str "https://b")]]
    [("proto", .str "https"), ("public_url", .str "https://b")] "https://b"
    (by decide) rfl rfl
